import Mathlib

/-!
Verification development for the flockmind cluster daemon.

This file embeds the parts of the Rust source relevant to the replicated
state machine (`src/replicator/state_machine.rs`), the policy validator
(`src/executor/validator.rs`) and the action tracker (`src/brain/tracker.rs`),
and proves properties about them.

Modelling conventions:
- `DateTime<Utc>` is modelled as `Nat` (an abstract timestamp).  Code that
  reads the wall clock (`Utc::now()`) takes the current time as an explicit
  `now : Nat` parameter.
- `f32` metric fields are only ever stored and copied by the embedded code
  (never used arithmetically), so they are modelled by their bit pattern
  as a `Nat`.
- `serde_json::Value` is treated by all embedded code as an opaque value;
  it is modelled as `String`.
- `std::collections::HashMap<String, V>` is modelled as an association list
  `List (String × V)`; `insert` replaces any existing binding of the key,
  `remove` deletes it, matching the contents semantics of `HashMap`.
-/

namespace Flockmind

abbrev Timestamp := Nat

abbrev F32 := Nat

abbrev Json := String

abbrev NodeId := String

abbrev TaskId := String

abbrev AttachmentId := String

abbrev GoalId := String

/-- `NodeHealth` from src/types.rs. -/
inductive NodeHealth where
  | Healthy
  | Degraded (reason : String)
  | Unreachable
  | Unknown
deriving DecidableEq

/-- `NodeStatus` from src/types.rs. -/
structure NodeStatus where
  node_id : NodeId
  hostname : String
  tags : List String
  health : NodeHealth
  last_heartbeat : Timestamp
  cpu_usage : F32
  memory_usage : F32
  disk_usage : F32
deriving DecidableEq

/-- `AttachmentKind` from src/types.rs. -/
inductive AttachmentKind where
  | Directory (path : String)
  | File (path : String)
  | DockerContainer (container_id : String)
  | Service (name : String) (unit : Option String)
  | Webhook (url : String)
  | Custom (type_name : String) (config : Json)
deriving DecidableEq

/-- `Attachment` from src/types.rs (metadata map modelled as an association list). -/
structure Attachment where
  id : AttachmentId
  node_id : NodeId
  kind : AttachmentKind
  capabilities : List String
  metadata : List (String × String)
  created_at : Timestamp
deriving DecidableEq

/-- `TaskStatus` from src/types.rs. -/
inductive TaskStatus where
  | Pending
  | Scheduled
  | Running
  | Completed
  | Failed (error : String)
  | Cancelled
deriving DecidableEq

/-- `TaskPayload` from src/types.rs. -/
inductive TaskPayload where
  | Echo (message : String)
  | SyncDirectory (src : String) (dst : String)
  | RunCommand (command : String) (args : List String)
  | CheckService (service_name : String)
  | RestartService (service_name : String)
  | DockerRun (image : String) (args : List String)
  | Custom (tool_id : String) (args : Json)
deriving DecidableEq

/-- `Task` from src/types.rs (`priority: u8` stored as `Nat`). -/
structure Task where
  id : TaskId
  target_node : NodeId
  payload : TaskPayload
  status : TaskStatus
  priority : Nat
  created_at : Timestamp
  updated_at : Timestamp
  result : Option Json
deriving DecidableEq

/-- `Goal` from src/types.rs. -/
structure Goal where
  id : GoalId
  description : String
  constraints : List String
  priority : Nat
  active : Bool
  created_at : Timestamp
deriving DecidableEq

/-- `NodeMetrics` from src/types.rs. -/
structure NodeMetrics where
  cpu_usage : F32
  memory_usage : F32
  disk_usage : F32
deriving DecidableEq

/-- `ClusterCommand` from src/types.rs. -/
inductive ClusterCommand where
  | RegisterNode (status : NodeStatus)
  | UpdateNodeHealth (node_id : NodeId) (health : NodeHealth) (metrics : NodeMetrics)
  | RemoveNode (node_id : NodeId)
  | PutTask (task : Task)
  | UpdateTaskStatus (task_id : TaskId) (status : TaskStatus) (result : Option Json)
  | PutAttachment (attachment : Attachment)
  | RemoveAttachment (attachment_id : AttachmentId)
  | PutGoal (goal : Goal)
  | RemoveGoal (goal_id : GoalId)
deriving DecidableEq

/-- Finite map from `String` keys, modelling `HashMap<String, V>` contents. -/
abbrev SMap (V : Type) := List (String × V)

/-- `HashMap::get`: first binding of the key, if any. -/
def getv {V : Type} : SMap V → String → Option V
  | [], _ => none
  | (k, v) :: rest, key => if k = key then some v else getv rest key

/-- `HashMap::remove`: drop every binding of the key. -/
def removev {V : Type} : SMap V → String → SMap V
  | [], _ => []
  | (k, v) :: rest, key =>
      if k = key then removev rest key else (k, v) :: removev rest key

/-- `HashMap::insert`: bind the key to `v`, replacing any existing binding. -/
def insertv {V : Type} (m : SMap V) (key : String) (v : V) : SMap V :=
  (key, v) :: removev m key

/-- `HiveState` from src/replicator/state_machine.rs. -/
structure HiveState where
  nodes : SMap NodeStatus
  tasks : SMap Task
  attachments : SMap Attachment
  goals : SMap Goal
  last_applied_index : Nat
deriving DecidableEq

/-- `HiveState::new`. -/
def HiveState.new : HiveState :=
  { nodes := [], tasks := [], attachments := [], goals := [], last_applied_index := 0 }

/-- `HiveState::apply` from src/replicator/state_machine.rs.  The two branches
that call `Utc::now()` in the source (`UpdateNodeHealth` and `UpdateTaskStatus`)
receive the wall-clock reading through the explicit `now` parameter. -/
def HiveState.apply (now : Timestamp) (s : HiveState) (command : ClusterCommand) : HiveState :=
  match command with
  | ClusterCommand.RegisterNode status =>
      { s with nodes := insertv s.nodes status.node_id status }
  | ClusterCommand.UpdateNodeHealth node_id health metrics =>
      match getv s.nodes node_id with
      | some node =>
          let node2 : NodeStatus :=
            { node with
                health := health
                cpu_usage := metrics.cpu_usage
                memory_usage := metrics.memory_usage
                disk_usage := metrics.disk_usage
                last_heartbeat := now }
          { s with nodes := insertv s.nodes node_id node2 }
      | none => s
  | ClusterCommand.RemoveNode node_id =>
      { s with nodes := removev s.nodes node_id }
  | ClusterCommand.PutTask task =>
      { s with tasks := insertv s.tasks task.id task }
  | ClusterCommand.UpdateTaskStatus task_id status result =>
      match getv s.tasks task_id with
      | some task =>
          let task2 : Task :=
            { task with status := status, result := result, updated_at := now }
          { s with tasks := insertv s.tasks task_id task2 }
      | none => s
  | ClusterCommand.PutAttachment attachment =>
      { s with attachments := insertv s.attachments attachment.id attachment }
  | ClusterCommand.RemoveAttachment attachment_id =>
      { s with attachments := removev s.attachments attachment_id }
  | ClusterCommand.PutGoal goal =>
      { s with goals := insertv s.goals goal.id goal }
  | ClusterCommand.RemoveGoal goal_id =>
      { s with goals := removev s.goals goal_id }

/-- Classifies the commands whose `apply` branch reads the wall clock
(`Utc::now()` in the source): `UpdateNodeHealth` and `UpdateTaskStatus`. -/
def uses_clock : ClusterCommand → Bool
  | ClusterCommand.UpdateNodeHealth _ _ _ => true
  | ClusterCommand.UpdateTaskStatus _ _ _ => true
  | _ => false

/-- Modelled from the spec: the task-status rank ordering
Pending → Scheduled → Running → (Completed, Failed, Cancelled) used to state
the monotonicity claim.  The source has no such function. -/
def specStatusRank : TaskStatus → Nat
  | TaskStatus.Pending => 0
  | TaskStatus.Scheduled => 1
  | TaskStatus.Running => 2
  | TaskStatus.Completed => 3
  | TaskStatus.Failed _ => 3
  | TaskStatus.Cancelled => 3

/-- A concrete task used to exercise the state machine. -/
def sampleTask : Task :=
  { id := "t", target_node := "n", payload := TaskPayload.Echo "m",
    status := TaskStatus.Pending, priority := 5, created_at := 0,
    updated_at := 0, result := none }

/-- A concrete task that has already reached the `Completed` status. -/
def completedTask : Task :=
  { sampleTask with status := TaskStatus.Completed }

/-- A concrete state holding the pending `sampleTask`. -/
def sampleState : HiveState :=
  { HiveState.new with tasks := [("t", sampleTask)] }

/-- A concrete state holding the `Completed` task `completedTask`. -/
def completedState : HiveState :=
  { HiveState.new with tasks := [("t", completedTask)] }

/-- `ClusterView` from src/types.rs. -/
structure ClusterView where
  nodes : List NodeStatus
  tasks : List Task
  attachments : List Attachment
  goals : List Goal
  leader_id : Option NodeId
  term : Nat
deriving DecidableEq

/-- `ClusterView::new`. -/
def ClusterView.new : ClusterView :=
  { nodes := [], tasks := [], attachments := [], goals := [], leader_id := none, term := 0 }

/-- `ClusterView::node_by_id`. -/
def ClusterView.node_by_id (c : ClusterView) (id : String) : Option NodeStatus :=
  c.nodes.find? (fun n => n.node_id == id)

/-- `BrainAction` from src/types.rs. -/
inductive BrainAction where
  | ScheduleTask (task : TaskPayload) (target_node : NodeId) (priority : Nat)
  | RebalanceTask (task_id : TaskId) (to_node : NodeId)
  | CancelTask (task_id : TaskId)
  | UpdateGoalProgress (goal_id : GoalId) (progress_percent : Nat) (notes : Option String)
  | CreateAttachment (node_id : NodeId) (kind : AttachmentKind) (capabilities : List String)
  | RemoveAttachment (attachment_id : AttachmentId)
  | MarkNodeDegraded (node_id : NodeId) (reason : String)
  | RequestHumanApproval (action_description : String) (severity : String)
  | NoOp (reason : String)
deriving DecidableEq

/-- `ExecutionPolicy` from src/executor/validator.rs. -/
structure ExecutionPolicy where
  allow_restart_services : Bool
  allow_docker : Bool
  allowed_sync_paths : List String
  blocked_sync_paths : List String
  require_approval_for_destructive : Bool
  max_concurrent_tasks_per_node : Nat
deriving DecidableEq

/-- `ExecutionPolicy::default` from src/executor/validator.rs. -/
def ExecutionPolicy.default : ExecutionPolicy :=
  { allow_restart_services := false
    allow_docker := false
    allowed_sync_paths := ["/home", "/data"]
    blocked_sync_paths := ["/etc", "/var", "/usr", "/bin", "/sbin", "/root"]
    require_approval_for_destructive := true
    max_concurrent_tasks_per_node := 5 }

/-- Rust `str::starts_with`: byte-prefix test, modelled as character-prefix. -/
def str_starts_with (s pre : String) : Bool :=
  pre.data.isPrefixOf s.data

/-- `ActionValidator::validate_node_exists`. -/
def validate_node_exists (node_id : String) (cluster : ClusterView) : Except String Unit :=
  if (cluster.node_by_id node_id).isNone then
    Except.error ("Node " ++ node_id ++ " not found in cluster")
  else
    Except.ok ()

/-- `ActionValidator::validate_task_exists`. -/
def validate_task_exists (task_id : String) (cluster : ClusterView) : Except String Unit :=
  if !(cluster.tasks.any (fun t => t.id == task_id)) then
    Except.error ("Task " ++ task_id ++ " not found")
  else
    Except.ok ()

/-- `ActionValidator::validate_goal_exists`. -/
def validate_goal_exists (goal_id : String) (cluster : ClusterView) : Except String Unit :=
  if !(cluster.goals.any (fun g => g.id == goal_id)) then
    Except.error ("Goal " ++ goal_id ++ " not found")
  else
    Except.ok ()

/-- `ActionValidator::validate_attachment_exists`. -/
def validate_attachment_exists (attachment_id : String) (cluster : ClusterView) :
    Except String Unit :=
  if !(cluster.attachments.any (fun a => a.id == attachment_id)) then
    Except.error ("Attachment " ++ attachment_id ++ " not found")
  else
    Except.ok ()

/-- `ActionValidator::validate_path_allowed` from src/executor/validator.rs:
the loop over `blocked_sync_paths` returns the first rejection, then the
allowed-list test runs. -/
def validate_path_allowed (policy : ExecutionPolicy) (path : String) : Except String Unit :=
  if policy.blocked_sync_paths.any (fun blocked => str_starts_with path blocked) then
    Except.error ("Policy: path " ++ path ++ " is blocked")
  else if policy.allowed_sync_paths.isEmpty
      || policy.allowed_sync_paths.any (fun p => str_starts_with path p) then
    Except.ok ()
  else
    Except.error ("Policy: path " ++ path ++ " not in allowed paths")

/-- `ActionValidator::validate_task_policy` from src/executor/validator.rs. -/
def validate_task_policy (policy : ExecutionPolicy) (task : TaskPayload) : Except String Unit :=
  match task with
  | TaskPayload.Echo _ => Except.ok ()
  | TaskPayload.CheckService _ => Except.ok ()
  | TaskPayload.RestartService _ =>
      if !policy.allow_restart_services then
        Except.error "Policy: service restart not allowed"
      else
        Except.ok ()
  | TaskPayload.DockerRun _ _ =>
      if !policy.allow_docker then
        Except.error "Policy: Docker execution not allowed"
      else
        Except.ok ()
  | TaskPayload.SyncDirectory src dst =>
      match validate_path_allowed policy src with
      | Except.error e => Except.error e
      | Except.ok _ => validate_path_allowed policy dst
  | TaskPayload.RunCommand command _ =>
      Except.error ("Policy: arbitrary command execution not allowed: " ++ command)
  | TaskPayload.Custom tool_id _ =>
      Except.error ("Policy: custom tool " ++ tool_id ++ " not pre-approved")

/-- `ActionValidator::validate_attachment_kind`. -/
def validate_attachment_kind (policy : ExecutionPolicy) (kind : AttachmentKind) :
    Except String Unit :=
  match kind with
  | AttachmentKind.Directory path => validate_path_allowed policy path
  | AttachmentKind.File path => validate_path_allowed policy path
  | AttachmentKind.DockerContainer _ =>
      if !policy.allow_docker then
        Except.error "Policy: Docker attachments not allowed"
      else
        Except.ok ()
  | AttachmentKind.Service _ _ => Except.ok ()
  | AttachmentKind.Webhook _ => Except.ok ()
  | AttachmentKind.Custom _ _ => Except.ok ()

/-- Task statuses counted as active by `validate_task_limit`
(`matches!(t.status, TaskStatus::Pending | TaskStatus::Running)`). -/
def is_active_status : TaskStatus → Bool
  | TaskStatus.Pending => true
  | TaskStatus.Running => true
  | _ => false

/-- `ActionValidator::validate_task_limit`. -/
def validate_task_limit (policy : ExecutionPolicy) (node_id : String) (cluster : ClusterView) :
    Except String Unit :=
  let active_tasks :=
    (cluster.tasks.filter (fun t => t.target_node == node_id && is_active_status t.status)).length
  if active_tasks ≥ policy.max_concurrent_tasks_per_node then
    Except.error ("Policy: node " ++ node_id ++ " has too many active tasks")
  else
    Except.ok ()

/-- `ActionValidator::validate` from src/executor/validator.rs.  The source
chains the per-kind checks with the Rust `?` operator; each `match` on an
intermediate result models one `?`. -/
def ActionValidator.validate (policy : ExecutionPolicy) (action : BrainAction)
    (cluster : ClusterView) : Except String Unit :=
  match action with
  | BrainAction.ScheduleTask task target_node _ =>
      match validate_node_exists target_node cluster with
      | Except.error e => Except.error e
      | Except.ok _ =>
          match validate_task_policy policy task with
          | Except.error e => Except.error e
          | Except.ok _ => validate_task_limit policy target_node cluster
  | BrainAction.RebalanceTask task_id to_node =>
      match validate_node_exists to_node cluster with
      | Except.error e => Except.error e
      | Except.ok _ => validate_task_exists task_id cluster
  | BrainAction.CancelTask task_id => validate_task_exists task_id cluster
  | BrainAction.MarkNodeDegraded node_id _ => validate_node_exists node_id cluster
  | BrainAction.CreateAttachment node_id kind _ =>
      match validate_node_exists node_id cluster with
      | Except.error e => Except.error e
      | Except.ok _ => validate_attachment_kind policy kind
  | BrainAction.RemoveAttachment attachment_id =>
      validate_attachment_exists attachment_id cluster
  | BrainAction.UpdateGoalProgress goal_id _ _ => validate_goal_exists goal_id cluster
  | BrainAction.RequestHumanApproval _ _ => Except.ok ()
  | BrainAction.NoOp _ => Except.ok ()

/-- `ActionStatus` from src/brain/tracker.rs. -/
inductive ActionStatus where
  | Proposed
  | Executing
  | Completed
  | Failed
  | Cancelled
deriving DecidableEq

/-- `ActionResult` from src/brain/tracker.rs. -/
structure ActionResult where
  success : Bool
  message : Option String
  completed_at : Timestamp
deriving DecidableEq

/-- `TrackedAction` from src/brain/tracker.rs. -/
structure TrackedAction where
  id : String
  action : BrainAction
  proposed_at : Timestamp
  status : ActionStatus
  result : Option ActionResult
  retry_count : Nat
deriving DecidableEq

/-- `GoalProgress` from src/brain/tracker.rs. -/
structure GoalProgress where
  goal_id : String
  last_planned : Timestamp
  actions_proposed : Nat
  actions_completed : Nat
  actions_failed : Nat
  estimated_progress : Nat
  notes : List String
deriving DecidableEq

/-- `ActionTracker` from src/brain/tracker.rs (`action_timeout` in seconds). -/
structure ActionTracker where
  actions : SMap TrackedAction
  goal_progress : SMap GoalProgress
  action_history : List TrackedAction
  max_history : Nat
  max_retries : Nat
  action_timeout : Nat
deriving DecidableEq

/-- `ActionTracker::new`: empty ledger, `max_history` 1000, `max_retries` 3,
timeout five minutes. -/
def ActionTracker.new : ActionTracker :=
  { actions := []
    goal_progress := []
    action_history := []
    max_history := 1000
    max_retries := 3
    action_timeout := 300 }

/-- The `while history.len() > self.max_history { history.remove(0); }` loop of
`ActionTracker::add_to_history`: repeatedly drop the oldest (front) entry while
the bound is exceeded. -/
def trimHistory {α : Type} (maxH : Nat) (l : List α) : List α :=
  if l.length > maxH then trimHistory maxH (l.drop 1) else l
termination_by l.length
decreasing_by
  simp only [List.length_drop]
  omega

/-- `ActionTracker::add_to_history`: push at the back, then evict from the
front while over the bound. -/
def add_to_history {α : Type} (maxH : Nat) (l : List α) (a : α) : List α :=
  trimHistory maxH (l ++ [a])

/-- `ActionTracker::track_action`.  The source draws a fresh UUID for the id;
the nondeterministic draw is passed in as the `id` parameter. -/
def ActionTracker.track_action (now : Timestamp) (t : ActionTracker) (id : String)
    (action : BrainAction) : ActionTracker :=
  let tracked : TrackedAction :=
    { id := id, action := action, proposed_at := now,
      status := ActionStatus.Proposed, result := none, retry_count := 0 }
  { t with actions := insertv t.actions id tracked }

/-- `ActionTracker::mark_executing`. -/
def ActionTracker.mark_executing (t : ActionTracker) (id : String) : ActionTracker :=
  match getv t.actions id with
  | some a =>
      { t with actions := insertv t.actions id ({ a with status := ActionStatus.Executing }) }
  | none => t

/-- `ActionTracker::mark_completed`. -/
def ActionTracker.mark_completed (now : Timestamp) (t : ActionTracker) (id : String)
    (message : Option String) : ActionTracker :=
  match getv t.actions id with
  | some a =>
      let completed : TrackedAction :=
        { a with status := ActionStatus.Completed,
                 result := some { success := true, message := message, completed_at := now } }
      { t with actions := removev t.actions id,
               action_history := add_to_history t.max_history t.action_history completed }
  | none => t

/-- `ActionTracker::mark_failed`: returns `(should_retry, tracker)`. -/
def ActionTracker.mark_failed (now : Timestamp) (t : ActionTracker) (id : String)
    (message : Option String) : Bool × ActionTracker :=
  match getv t.actions id with
  | some a =>
      let retried := a.retry_count + 1
      if retried ≥ t.max_retries then
        let failed : TrackedAction :=
          { a with retry_count := retried, status := ActionStatus.Failed,
                   result := some { success := false, message := message, completed_at := now } }
        (false, { t with actions := removev t.actions id,
                         action_history := add_to_history t.max_history t.action_history failed })
      else
        let retriedAction : TrackedAction :=
          { a with retry_count := retried, status := ActionStatus.Proposed }
        (true, { t with actions := insertv t.actions id retriedAction })
  | none => (false, t)

/-- Discriminant of a `TaskPayload` (`std::mem::discriminant`). -/
def payload_discr : TaskPayload → Nat
  | TaskPayload.Echo _ => 0
  | TaskPayload.SyncDirectory _ _ => 1
  | TaskPayload.RunCommand _ _ => 2
  | TaskPayload.CheckService _ => 3
  | TaskPayload.RestartService _ => 4
  | TaskPayload.DockerRun _ _ => 5
  | TaskPayload.Custom _ _ => 6

/-- `is_similar_action` from src/brain/tracker.rs. -/
def is_similar_action : BrainAction → BrainAction → Bool
  | BrainAction.ScheduleTask t1 n1 _, BrainAction.ScheduleTask t2 n2 _ =>
      n1 == n2 && payload_discr t1 == payload_discr t2
  | BrainAction.RebalanceTask t1 _, BrainAction.RebalanceTask t2 _ => t1 == t2
  | BrainAction.CancelTask t1, BrainAction.CancelTask t2 => t1 == t2
  | BrainAction.MarkNodeDegraded n1 _, BrainAction.MarkNodeDegraded n2 _ => n1 == n2
  | _, _ => false

/-- `ActionTracker::has_similar_pending`. -/
def ActionTracker.has_similar_pending (t : ActionTracker) (action : BrainAction) : Bool :=
  t.actions.any (fun p => is_similar_action p.2.action action)

/-- A concrete action used in witnesses. -/
def sampleAction : BrainAction := BrainAction.CancelTask "x"

/-- A concrete tracked action used in witnesses. -/
def sampleTracked : TrackedAction :=
  { id := "a", action := sampleAction, proposed_at := 0,
    status := ActionStatus.Proposed, result := none, retry_count := 0 }

/-- A concrete tracker holding exactly `sampleTracked`. -/
def sampleTracker : ActionTracker :=
  { ActionTracker.new with actions := [("a", sampleTracked)] }

theorem getv_removev {V : Type} (m : SMap V) (k key : String) :
    getv (removev m k) key = if key = k then none else getv m key := by
  induction m with
  | nil => simp [removev, getv]
  | cons p rest ih =>
      obtain ⟨pk, pv⟩ := p
      simp only [removev]
      by_cases hpk : pk = k
      · rw [if_pos hpk, ih]
        by_cases hkey : key = k
        · simp [hkey]
        · have hpkkey : ¬ pk = key := fun e => hkey (e.symm.trans hpk)
          simp [getv, hkey, hpkkey]
      · rw [if_neg hpk]
        simp only [getv]
        by_cases hpkey : pk = key
        · have hkk : ¬ key = k := fun h => hpk (hpkey.trans h)
          simp [hpkey, hkk]
        · rw [if_neg hpkey, ih]
          by_cases hkey : key = k <;> simp [hkey, hpkey]

theorem getv_insertv {V : Type} (m : SMap V) (k key : String) (v : V) :
    getv (insertv m k v) key = if key = k then some v else getv m key := by
  by_cases h : key = k
  · simp [insertv, getv, h]
  · have hk : ¬ k = key := fun e => h e.symm
    simp [insertv, getv, hk, getv_removev, h]

theorem removev_removev {V : Type} (m : SMap V) (k : String) :
    removev (removev m k) k = removev m k := by
  induction m with
  | nil => simp [removev]
  | cons p rest ih =>
      obtain ⟨pk, pv⟩ := p
      by_cases hpk : pk = k <;> simp [removev, hpk, ih]

theorem removev_insertv_self {V : Type} (m : SMap V) (k : String) (v : V) :
    removev (insertv m k v) k = removev m k := by
  simp [insertv, removev, removev_removev]

theorem insertv_insertv {V : Type} (m : SMap V) (k : String) (v : V) :
    insertv (insertv m k v) k v = insertv m k v := by
  simp [insertv, removev, removev_removev]

theorem mem_removev {V : Type} (m : SMap V) (k : String) (p : String × V)
    (h : p ∈ removev m k) : p ∈ m ∧ p.1 ≠ k := by
  induction m with
  | nil => simp [removev] at h
  | cons q rest ih =>
      obtain ⟨qk, qv⟩ := q
      simp only [removev] at h
      by_cases hqk : qk = k
      · rw [if_pos hqk] at h
        exact ⟨List.mem_cons_of_mem _ (ih h).1, (ih h).2⟩
      · rw [if_neg hqk, List.mem_cons] at h
        rcases h with h | h
        · subst h
          exact ⟨List.mem_cons_self _ _, hqk⟩
        · exact ⟨List.mem_cons_of_mem _ (ih h).1, (ih h).2⟩

theorem beq_symm_of_lawful {α : Type} [BEq α] [LawfulBEq α] (x y : α) : (x == y) = (y == x) := by
  cases h : x == y with
  | true =>
      have hxy := eq_of_beq h
      subst hxy
      simp
  | false =>
      cases h2 : y == x with
      | false => rfl
      | true =>
          have hyx := eq_of_beq h2
          subst hyx
          simp at h

theorem and_beq_symm (a b : String) (c d : Nat) :
    (a == b && c == d) = (b == a && d == c) := by
  rw [beq_symm_of_lawful a b, beq_symm_of_lawful c d]

theorem trimHistory_drop_aux {α : Type} (maxH : Nat) :
    ∀ (k : Nat) (l : List α), l.length - maxH = k →
      trimHistory maxH l = l.drop (l.length - maxH) := by
  intro k
  induction k with
  | zero =>
      intro l hl
      rw [trimHistory, if_neg (by omega), hl, List.drop_zero]
  | succ n ih =>
      intro l hl
      have hgt : l.length > maxH := by omega
      rw [trimHistory, if_pos hgt]
      have hlen : (l.drop 1).length - maxH = n := by
        simp only [List.length_drop]
        omega
      rw [ih (l.drop 1) hlen, hlen, List.drop_drop]
      congr 1
      omega

theorem trimHistory_drop {α : Type} (maxH : Nat) (l : List α) :
    trimHistory maxH l = l.drop (l.length - maxH) :=
  trimHistory_drop_aux maxH (l.length - maxH) l rfl

theorem add_to_history_length_le {α : Type} (maxH : Nat) (l : List α) (a : α) :
    (add_to_history maxH l a).length ≤ maxH := by
  unfold add_to_history
  rw [trimHistory_drop]
  simp only [List.length_drop]
  omega

theorem mark_failed_retry_lt (now : Timestamp) (t : ActionTracker) (id : String)
    (msg : Option String) (a : TrackedAction) (h : getv t.actions id = some a)
    (hlt : a.retry_count + 1 < t.max_retries) :
    ActionTracker.mark_failed now t id msg
      = (true,
          { t with
              actions :=
                insertv t.actions id
                  ({ a with
                      retry_count := a.retry_count + 1,
                      status := ActionStatus.Proposed }) }) := by
  simp only [ActionTracker.mark_failed, h]
  rw [if_neg (by omega)]

theorem mark_failed_retry_ge (now : Timestamp) (t : ActionTracker) (id : String)
    (msg : Option String) (a : TrackedAction) (h : getv t.actions id = some a)
    (hge : a.retry_count + 1 ≥ t.max_retries) :
    ActionTracker.mark_failed now t id msg
      = (false, { t with
          actions := removev t.actions id,
          action_history := add_to_history t.max_history t.action_history
            ({ a with retry_count := a.retry_count + 1, status := ActionStatus.Failed,
                      result := some { success := false, message := msg,
                                       completed_at := now } }) }) := by
  simp only [ActionTracker.mark_failed, h]
  rw [if_pos hge]

theorem any_similar_removev (m : SMap TrackedAction) (id : String) (act : BrainAction)
    (hnone : ∀ p ∈ m, p.1 ≠ id → is_similar_action p.2.action act = false) :
    (removev m id).any (fun p => is_similar_action p.2.action act) = false := by
  rw [List.any_eq_false]
  intro p hp
  have hm := mem_removev m id p hp
  simp [hnone p hm.1 hm.2]

/-- Claim C1 (counterexample): the state machine does not compare status
ranks.  In a state whose task `t` is `Completed`, applying
`UpdateTaskStatus` carrying the lower-ranked `Pending` changes the stored
status to `Pending`, a backward transition the claim says cannot happen. -/
theorem update_task_status_not_monotonic :
    specStatusRank TaskStatus.Pending < specStatusRank TaskStatus.Completed ∧
    (getv completedState.tasks "t").map Task.status = some TaskStatus.Completed ∧
    (getv (HiveState.apply 0 completedState
        (ClusterCommand.UpdateTaskStatus "t" TaskStatus.Pending none)).tasks "t").map Task.status
      = some TaskStatus.Pending := by
  decide

/-- Claim C1 (amended): `HiveState::apply` on `UpdateTaskStatus` overwrites the
task's status, result and `updated_at` unconditionally whenever the task
exists, regardless of the rank of the new status relative to the old one. -/
theorem update_task_status_overwrites (now : Timestamp) (s : HiveState) (tid : String)
    (st : TaskStatus) (r : Option Json) (task : Task)
    (h : getv s.tasks tid = some task) :
    getv (HiveState.apply now s (ClusterCommand.UpdateTaskStatus tid st r)).tasks tid
      = some { task with status := st, result := r, updated_at := now } := by
  simp [HiveState.apply, h, getv_insertv]

/-- Claim C1 (amended, witness): concrete instance of the overwrite theorem. -/
theorem update_task_status_overwrites_witness :
    getv completedState.tasks "t" = some completedTask ∧
    getv (HiveState.apply 7 completedState
        (ClusterCommand.UpdateTaskStatus "t" TaskStatus.Running none)).tasks "t"
      = some { completedTask with
                 status := TaskStatus.Running, result := none, updated_at := 7 } :=
  ⟨by decide,
   update_task_status_overwrites 7 completedState "t" TaskStatus.Running none completedTask
     (by decide)⟩

/-- Claim C2 (counterexample): `apply` reads the wall clock.  Applying the
same `UpdateTaskStatus` command to the same state at two different clock
readings yields different states (the task's `updated_at` differs). -/
theorem apply_clock_dependent :
    HiveState.apply 0 sampleState (ClusterCommand.UpdateTaskStatus "t" TaskStatus.Running none)
      ≠ HiveState.apply 1 sampleState
          (ClusterCommand.UpdateTaskStatus "t" TaskStatus.Running none) := by
  decide

/-- Claim C2 (amended): `apply` is deterministic given the apply-time clock
reading; for every command other than `UpdateNodeHealth` and
`UpdateTaskStatus` (the two branches that read the clock) the result is
independent of the clock reading altogether. -/
theorem apply_deterministic (t1 t2 : Timestamp) (s : HiveState) (c : ClusterCommand)
    (h : uses_clock c = false) :
    HiveState.apply t1 s c = HiveState.apply t2 s c := by
  cases c <;> first
    | rfl
    | simp [uses_clock] at h

/-- Claim C2 (amended, witness): concrete instance of clock independence. -/
theorem apply_deterministic_witness :
    uses_clock (ClusterCommand.RemoveNode "n") = false ∧
    HiveState.apply 0 sampleState (ClusterCommand.RemoveNode "n")
      = HiveState.apply 5 sampleState (ClusterCommand.RemoveNode "n") :=
  ⟨by decide, apply_deterministic 0 5 sampleState (ClusterCommand.RemoveNode "n") (by decide)⟩

/-- Claim C6: applying any of `RegisterNode`, `PutTask`, `PutAttachment`,
`PutGoal`, `RemoveNode`, `RemoveAttachment`, `RemoveGoal` twice in a row
yields the same state as applying it once (the second application may even
happen at a different clock reading). -/
theorem apply_idempotent_commands (t1 t2 : Timestamp) (s : HiveState) :
    (∀ status : NodeStatus,
      HiveState.apply t2 (HiveState.apply t1 s (ClusterCommand.RegisterNode status))
          (ClusterCommand.RegisterNode status)
        = HiveState.apply t1 s (ClusterCommand.RegisterNode status)) ∧
    (∀ task : Task,
      HiveState.apply t2 (HiveState.apply t1 s (ClusterCommand.PutTask task))
          (ClusterCommand.PutTask task)
        = HiveState.apply t1 s (ClusterCommand.PutTask task)) ∧
    (∀ attachment : Attachment,
      HiveState.apply t2 (HiveState.apply t1 s (ClusterCommand.PutAttachment attachment))
          (ClusterCommand.PutAttachment attachment)
        = HiveState.apply t1 s (ClusterCommand.PutAttachment attachment)) ∧
    (∀ goal : Goal,
      HiveState.apply t2 (HiveState.apply t1 s (ClusterCommand.PutGoal goal))
          (ClusterCommand.PutGoal goal)
        = HiveState.apply t1 s (ClusterCommand.PutGoal goal)) ∧
    (∀ node_id : NodeId,
      HiveState.apply t2 (HiveState.apply t1 s (ClusterCommand.RemoveNode node_id))
          (ClusterCommand.RemoveNode node_id)
        = HiveState.apply t1 s (ClusterCommand.RemoveNode node_id)) ∧
    (∀ attachment_id : AttachmentId,
      HiveState.apply t2 (HiveState.apply t1 s (ClusterCommand.RemoveAttachment attachment_id))
          (ClusterCommand.RemoveAttachment attachment_id)
        = HiveState.apply t1 s (ClusterCommand.RemoveAttachment attachment_id)) ∧
    (∀ goal_id : GoalId,
      HiveState.apply t2 (HiveState.apply t1 s (ClusterCommand.RemoveGoal goal_id))
          (ClusterCommand.RemoveGoal goal_id)
        = HiveState.apply t1 s (ClusterCommand.RemoveGoal goal_id)) := by
  refine ⟨?_, ?_, ?_, ?_, ?_, ?_, ?_⟩ <;> intro x <;>
    simp [HiveState.apply, insertv_insertv, removev_removev]

/-- Claim C7: no command deletes a task — every task id present in the tasks
mapping is still present after applying any command. -/
theorem tasks_never_deleted (now : Timestamp) (s : HiveState) (c : ClusterCommand)
    (tid : String) (h : (getv s.tasks tid).isSome = true) :
    (getv (HiveState.apply now s c).tasks tid).isSome = true := by
  cases c with
  | RegisterNode status => exact h
  | UpdateNodeHealth node_id health metrics =>
      simp only [HiveState.apply]
      cases getv s.nodes node_id <;> simpa using h
  | RemoveNode node_id => exact h
  | PutTask task =>
      simp only [HiveState.apply, getv_insertv]
      by_cases htid : tid = task.id <;> simp [htid, h]
  | UpdateTaskStatus task_id status result =>
      simp only [HiveState.apply]
      cases getv s.tasks task_id with
      | none => simpa using h
      | some task =>
          simp only [getv_insertv]
          by_cases htid : tid = task_id <;> simp [htid, h]
  | PutAttachment attachment => exact h
  | RemoveAttachment attachment_id => exact h
  | PutGoal goal => exact h
  | RemoveGoal goal_id => exact h

/-- Claim C7 (witness): concrete instance of task retention. -/
theorem tasks_never_deleted_witness :
    (getv sampleState.tasks "t").isSome = true ∧
    (getv (HiveState.apply 0 sampleState (ClusterCommand.RemoveNode "n")).tasks "t").isSome
      = true :=
  ⟨by decide, tasks_never_deleted 0 sampleState (ClusterCommand.RemoveNode "n") "t" (by decide)⟩

/-- Claim C10: calling `mark_executing`, `mark_completed` or `mark_failed`
with an id absent from the pending map leaves the whole tracker unchanged,
and `mark_failed` returns `false`. -/
theorem mark_absent_id_noop (now : Timestamp) (t : ActionTracker) (id : String)
    (msg : Option String) (h : getv t.actions id = none) :
    ActionTracker.mark_executing t id = t ∧
    ActionTracker.mark_completed now t id msg = t ∧
    ActionTracker.mark_failed now t id msg = (false, t) := by
  refine ⟨?_, ?_, ?_⟩ <;>
    simp [ActionTracker.mark_executing, ActionTracker.mark_completed,
          ActionTracker.mark_failed, h]

/-- Claim C10 (witness): concrete instance on the fresh tracker. -/
theorem mark_absent_id_noop_witness :
    getv ActionTracker.new.actions "x" = none ∧
    (ActionTracker.mark_executing ActionTracker.new "x" = ActionTracker.new ∧
     ActionTracker.mark_completed 0 ActionTracker.new "x" none = ActionTracker.new ∧
     ActionTracker.mark_failed 0 ActionTracker.new "x" none = (false, ActionTracker.new)) :=
  ⟨rfl, mark_absent_id_noop 0 ActionTracker.new "x" none rfl⟩

/-- Claim C8: `is_similar_action` is symmetric, and reflexive for the four
action kinds of the similarity table (`ScheduleTask`, `RebalanceTask`,
`CancelTask`, `MarkNodeDegraded`). -/
theorem similar_symm_and_refl :
    (∀ a b : BrainAction, is_similar_action a b = is_similar_action b a) ∧
    (∀ (p : TaskPayload) (n : NodeId) (pr : Nat),
      is_similar_action (BrainAction.ScheduleTask p n pr) (BrainAction.ScheduleTask p n pr)
        = true) ∧
    (∀ (tid : TaskId) (nd : NodeId),
      is_similar_action (BrainAction.RebalanceTask tid nd) (BrainAction.RebalanceTask tid nd)
        = true) ∧
    (∀ tid : TaskId,
      is_similar_action (BrainAction.CancelTask tid) (BrainAction.CancelTask tid) = true) ∧
    (∀ (nid : NodeId) (r : String),
      is_similar_action (BrainAction.MarkNodeDegraded nid r)
        (BrainAction.MarkNodeDegraded nid r) = true) := by
  refine ⟨?_, ?_, ?_, ?_, ?_⟩
  · intro a b
    cases a <;> cases b <;>
      simp only [is_similar_action] <;>
      first
        | rfl
        | apply and_beq_symm
        | apply beq_symm_of_lawful
  · intro p n pr
    simp [is_similar_action]
  · intro tid nd
    simp [is_similar_action]
  · intro tid
    simp [is_similar_action]
  · intro nid r
    simp [is_similar_action]

/-- Claim C9: the tracker history is bounded by 1000 entries and evicts the
oldest entries first.  Part one characterises `add_to_history` at the default
bound: the result is the pushed list with its oldest excess entries dropped
from the front, and its length never exceeds 1000.  Part two: every tracker
operation keeps the history at 1000 entries or fewer. -/
theorem tracker_history_bounded :
    (∀ (l : List TrackedAction) (a : TrackedAction),
      (add_to_history 1000 l a).length ≤ 1000 ∧
      add_to_history 1000 l a = (l ++ [a]).drop ((l ++ [a]).length - 1000)) ∧
    (∀ t : ActionTracker, t.max_history = 1000 → t.action_history.length ≤ 1000 →
      ∀ (now : Timestamp) (id : String) (act : BrainAction) (msg : Option String),
        (ActionTracker.track_action now t id act).action_history.length ≤ 1000 ∧
        (ActionTracker.mark_executing t id).action_history.length ≤ 1000 ∧
        (ActionTracker.mark_completed now t id msg).action_history.length ≤ 1000 ∧
        ((ActionTracker.mark_failed now t id msg).2).action_history.length ≤ 1000) := by
  constructor
  · intro l a
    exact ⟨add_to_history_length_le 1000 l a, trimHistory_drop 1000 (l ++ [a])⟩
  · intro t hmax hlen now id act msg
    refine ⟨?_, ?_, ?_, ?_⟩
    · simpa [ActionTracker.track_action] using hlen
    · cases hg : getv t.actions id <;>
        simp [ActionTracker.mark_executing, hg, hlen]
    · cases hg : getv t.actions id with
      | none => simpa [ActionTracker.mark_completed, hg] using hlen
      | some a =>
          simp only [ActionTracker.mark_completed, hg, hmax]
          exact add_to_history_length_le 1000 _ _
    · cases hg : getv t.actions id with
      | none => simpa [ActionTracker.mark_failed, hg] using hlen
      | some a =>
          simp only [ActionTracker.mark_failed, hg]
          by_cases hr : a.retry_count + 1 ≥ t.max_retries
          · rw [if_pos hr]
            simpa [hmax] using add_to_history_length_le 1000 t.action_history _
          · rw [if_neg hr]
            simpa using hlen

/-- Claim C9 (witness): concrete instance of part two on the fresh tracker. -/
theorem tracker_history_bounded_witness :
    (ActionTracker.new.max_history = 1000 ∧
     ActionTracker.new.action_history.length ≤ 1000) ∧
    ((ActionTracker.track_action 0 ActionTracker.new "a" sampleAction).action_history.length
        ≤ 1000 ∧
     (ActionTracker.mark_executing ActionTracker.new "a").action_history.length ≤ 1000 ∧
     (ActionTracker.mark_completed 0 ActionTracker.new "a" none).action_history.length ≤ 1000 ∧
     ((ActionTracker.mark_failed 0 ActionTracker.new "a" none).2).action_history.length
        ≤ 1000) :=
  ⟨⟨rfl, by decide⟩,
   tracker_history_bounded.2 ActionTracker.new rfl (by decide) 0 "a" sampleAction none⟩

/-- Claim C3: `validate` rejects a `SyncDirectory` schedule whenever `src` or
`dst` starts with an entry of `blocked_sync_paths` (regardless of the allowed
list — blocked wins), and a path clear of every blocked prefix passes
`validate_path_allowed` exactly when `allowed_sync_paths` is empty or the
path starts with one of its entries. -/
theorem sync_path_policy (policy : ExecutionPolicy) (cluster : ClusterView)
    (src dst : String) (tn : NodeId) (prio : Nat) :
    ((∃ b ∈ policy.blocked_sync_paths,
        str_starts_with src b = true ∨ str_starts_with dst b = true) →
      ActionValidator.validate policy
          (BrainAction.ScheduleTask (TaskPayload.SyncDirectory src dst) tn prio) cluster
        ≠ Except.ok ()) ∧
    (∀ path : String,
      (∀ b ∈ policy.blocked_sync_paths, str_starts_with path b = false) →
      (validate_path_allowed policy path = Except.ok () ↔
        policy.allowed_sync_paths = [] ∨
          ∃ p ∈ policy.allowed_sync_paths, str_starts_with path p = true)) := by
  constructor
  · rintro ⟨b, hb, hsd⟩ hok
    simp only [ActionValidator.validate] at hok
    cases hne : validate_node_exists tn cluster with
    | error e => rw [hne] at hok; simp at hok
    | ok u =>
        rw [hne] at hok
        simp only [validate_task_policy] at hok
        cases hsrc : validate_path_allowed policy src with
        | error e => rw [hsrc] at hok; simp at hok
        | ok u2 =>
            rw [hsrc] at hok
            cases hsd with
            | inl hs =>
                have hany : policy.blocked_sync_paths.any
                    (fun blocked => str_starts_with src blocked) = true :=
                  List.any_eq_true.mpr ⟨b, hb, hs⟩
                simp [validate_path_allowed, hany] at hsrc
            | inr hd =>
                cases hdst : validate_path_allowed policy dst with
                | error e => rw [hdst] at hok; simp at hok
                | ok u3 =>
                    have hany : policy.blocked_sync_paths.any
                        (fun blocked => str_starts_with dst blocked) = true :=
                      List.any_eq_true.mpr ⟨b, hb, hd⟩
                    simp [validate_path_allowed, hany] at hdst
  · intro path hblocked
    have hany : policy.blocked_sync_paths.any
        (fun blocked => str_starts_with path blocked) = false := by
      rw [List.any_eq_false]
      intro b hb
      simp [hblocked b hb]
    constructor
    · intro hok
      simp only [validate_path_allowed, hany, Bool.false_eq_true, if_false] at hok
      by_cases hcond : (policy.allowed_sync_paths.isEmpty
          || policy.allowed_sync_paths.any (fun p => str_starts_with path p)) = true
      · rw [Bool.or_eq_true] at hcond
        rcases hcond with hemp | hall
        · left
          exact List.isEmpty_iff.mp hemp
        · right
          exact List.any_eq_true.mp hall
      · rw [if_neg hcond] at hok
        simp at hok
    · intro hallow
      have hcond : (policy.allowed_sync_paths.isEmpty
          || policy.allowed_sync_paths.any (fun p => str_starts_with path p)) = true := by
        rcases hallow with he | ⟨p, hp, hsw⟩
        · simp [he]
        · rw [Bool.or_eq_true]
          right
          exact List.any_eq_true.mpr ⟨p, hp, hsw⟩
      simp [validate_path_allowed, hany, hcond]

/-- Claim C3 (witness): the default policy blocks a sync out of `/etc` even
though the destination is under the allowed `/home` prefix. -/
theorem sync_path_policy_witness :
    (∃ b ∈ ExecutionPolicy.default.blocked_sync_paths,
        str_starts_with "/etc/nginx" b = true ∨ str_starts_with "/home/b" b = true) ∧
    ActionValidator.validate ExecutionPolicy.default
        (BrainAction.ScheduleTask (TaskPayload.SyncDirectory "/etc/nginx" "/home/b") "n" 5)
        ClusterView.new
      ≠ Except.ok () :=
  ⟨⟨"/etc", by decide, Or.inl (by decide)⟩,
   (sync_path_policy ExecutionPolicy.default ClusterView.new "/etc/nginx" "/home/b" "n" 5).1
     ⟨"/etc", by decide, Or.inl (by decide)⟩⟩

/-- Claim C4: `validate` never accepts a `ScheduleTask` whose payload is
`RunCommand` or `Custom`, for any policy and any cluster snapshot. -/
theorem run_command_and_custom_rejected (policy : ExecutionPolicy) (cluster : ClusterView)
    (tn : NodeId) (prio : Nat) :
    (∀ (command : String) (args : List String),
      ActionValidator.validate policy
          (BrainAction.ScheduleTask (TaskPayload.RunCommand command args) tn prio) cluster
        ≠ Except.ok ()) ∧
    (∀ (tool_id : String) (args : Json),
      ActionValidator.validate policy
          (BrainAction.ScheduleTask (TaskPayload.Custom tool_id args) tn prio) cluster
        ≠ Except.ok ()) := by
  constructor <;> intro x y hok <;>
    · simp only [ActionValidator.validate] at hok
      cases hne : validate_node_exists tn cluster with
      | error e => rw [hne] at hok; simp at hok
      | ok u => rw [hne] at hok; simp [validate_task_policy] at hok

/-- Claim C4 (witness): concrete rejections under the default policy. -/
theorem run_command_and_custom_rejected_witness :
    ActionValidator.validate ExecutionPolicy.default
        (BrainAction.ScheduleTask (TaskPayload.RunCommand "rm" []) "n" 5) ClusterView.new
      ≠ Except.ok () ∧
    ActionValidator.validate ExecutionPolicy.default
        (BrainAction.ScheduleTask (TaskPayload.Custom "tool" "cfg") "n" 5) ClusterView.new
      ≠ Except.ok () :=
  ⟨(run_command_and_custom_rejected ExecutionPolicy.default ClusterView.new "n" 5).1 "rm" [],
   (run_command_and_custom_rejected ExecutionPolicy.default ClusterView.new "n" 5).2
     "tool" "cfg"⟩

/-- Claim C5: `mark_failed` increments the retry count; while the incremented
count is below `max_retries` it resets the action to `Proposed` and returns
`true`, and once it reaches `max_retries` it removes the action from the
pending map, appends it to the history with terminal `Failed` status, and
returns `false`.  Consequently, starting from retry count 0 with the default
`max_retries = 3`, three consecutive `mark_failed` calls return
`true, true, false`, leave the id absent from the pending map, and make
`has_similar_pending` return `false` when no other pending action is
similar. -/
theorem mark_failed_retry_bound :
    (∀ (now : Timestamp) (t : ActionTracker) (id : String) (msg : Option String)
        (a : TrackedAction), getv t.actions id = some a →
      (a.retry_count + 1 < t.max_retries →
        ActionTracker.mark_failed now t id msg
          = (true,
              { t with
                  actions :=
                    insertv t.actions id
                      ({ a with
                          retry_count := a.retry_count + 1,
                          status := ActionStatus.Proposed }) })) ∧
      (a.retry_count + 1 ≥ t.max_retries →
        ActionTracker.mark_failed now t id msg
          = (false,
              { t with
                  actions := removev t.actions id,
                  action_history :=
                    add_to_history t.max_history t.action_history
                      ({ a with
                          retry_count := a.retry_count + 1,
                          status := ActionStatus.Failed,
                          result := some { success := false, message := msg,
                                           completed_at := now } }) }))) ∧
    (∀ (now : Timestamp) (t : ActionTracker) (id : String) (msg : Option String)
        (a : TrackedAction),
      getv t.actions id = some a → a.retry_count = 0 → t.max_retries = 3 →
      (ActionTracker.mark_failed now t id msg).1 = true ∧
      (ActionTracker.mark_failed now
          (ActionTracker.mark_failed now t id msg).2 id msg).1 = true ∧
      (ActionTracker.mark_failed now
          (ActionTracker.mark_failed now
            (ActionTracker.mark_failed now t id msg).2 id msg).2 id msg).1 = false ∧
      getv (ActionTracker.mark_failed now
          (ActionTracker.mark_failed now
            (ActionTracker.mark_failed now t id msg).2 id msg).2 id msg).2.actions id
        = none ∧
      ((∀ p ∈ t.actions, p.1 ≠ id → is_similar_action p.2.action a.action = false) →
        ActionTracker.has_similar_pending
          (ActionTracker.mark_failed now
            (ActionTracker.mark_failed now
              (ActionTracker.mark_failed now t id msg).2 id msg).2 id msg).2 a.action
          = false)) := by
  constructor
  · intro now t id msg a h
    exact ⟨fun hlt => mark_failed_retry_lt now t id msg a h hlt,
           fun hge => mark_failed_retry_ge now t id msg a h hge⟩
  · intro now t id msg a h hr0 hmax
    set A1 : TrackedAction :=
      { a with retry_count := a.retry_count + 1, status := ActionStatus.Proposed } with hA1
    set T1 : ActionTracker := { t with actions := insertv t.actions id A1 } with hT1
    have h1 : ActionTracker.mark_failed now t id msg = (true, T1) := by
      rw [hT1, hA1]
      exact mark_failed_retry_lt now t id msg a h (by omega)
    have hg1 : getv T1.actions id = some A1 := by
      rw [hT1]
      show getv (insertv t.actions id A1) id = some A1
      rw [getv_insertv]
      simp
    have hr1 : A1.retry_count = a.retry_count + 1 := by rw [hA1]
    have hm1 : T1.max_retries = t.max_retries := by rw [hT1]
    set A2 : TrackedAction :=
      { A1 with retry_count := A1.retry_count + 1, status := ActionStatus.Proposed } with hA2
    set T2 : ActionTracker := { T1 with actions := insertv T1.actions id A2 } with hT2
    have h2 : ActionTracker.mark_failed now T1 id msg = (true, T2) := by
      rw [hT2, hA2]
      exact mark_failed_retry_lt now T1 id msg A1 hg1 (by omega)
    have hg2 : getv T2.actions id = some A2 := by
      rw [hT2]
      show getv (insertv T1.actions id A2) id = some A2
      rw [getv_insertv]
      simp
    have hr2 : A2.retry_count = A1.retry_count + 1 := by rw [hA2]
    have hm2 : T2.max_retries = T1.max_retries := by rw [hT2]
    have h3 := mark_failed_retry_ge now T2 id msg A2 hg2 (by omega)
    refine ⟨?_, ?_, ?_, ?_, ?_⟩
    · simp [h1]
    · simp [h1, h2]
    · simp [h1, h2, h3]
    · simp only [h1, h2, h3]
      show getv (removev T2.actions id) id = none
      rw [getv_removev]
      simp
    · intro hnone
      simp only [h1, h2, h3]
      show (removev T2.actions id).any
          (fun p => is_similar_action p.2.action a.action) = false
      have hacts : removev T2.actions id = removev t.actions id := by
        rw [hT2]
        show removev (insertv T1.actions id A2) id = removev t.actions id
        rw [removev_insertv_self, hT1]
        show removev (insertv t.actions id A1) id = removev t.actions id
        rw [removev_insertv_self]
      rw [hacts]
      exact any_similar_removev t.actions id a.action hnone

/-- Claim C5 (witness): on a tracker holding a single fresh action, three
consecutive `mark_failed` calls return `true, true, false`, leave the id
absent, and `has_similar_pending` is `false` afterwards. -/
theorem mark_failed_retry_bound_witness :
    (ActionTracker.mark_failed 0 sampleTracker "a" none).1 = true ∧
    (ActionTracker.mark_failed 0
        (ActionTracker.mark_failed 0 sampleTracker "a" none).2 "a" none).1 = true ∧
    (ActionTracker.mark_failed 0
        (ActionTracker.mark_failed 0
          (ActionTracker.mark_failed 0 sampleTracker "a" none).2 "a" none).2 "a" none).1
      = false ∧
    getv (ActionTracker.mark_failed 0
        (ActionTracker.mark_failed 0
          (ActionTracker.mark_failed 0 sampleTracker "a" none).2 "a" none).2 "a" none).2.actions
        "a" = none ∧
    ActionTracker.has_similar_pending
        (ActionTracker.mark_failed 0
          (ActionTracker.mark_failed 0
            (ActionTracker.mark_failed 0 sampleTracker "a" none).2 "a" none).2 "a" none).2
        sampleTracked.action = false :=
  have hmain := mark_failed_retry_bound.2 0 sampleTracker "a" none sampleTracked
    (by decide) rfl rfl
  ⟨hmain.1, hmain.2.1, hmain.2.2.1, hmain.2.2.2.1, hmain.2.2.2.2 (by decide)⟩

end Flockmind
